import Mathlib

/-!
Verification development for a Questions/Answers CRUD HTTP service.

The system is a thin JSON-over-HTTP layer over a relational store:
  * domain models (`Question`, `Answer`, their persisted `*Detail` forms,
    and the two-tier error taxonomy `DBError` / `HandlerError`),
  * DAO implementations (`QuestionsDaoImpl`, `AnswersDaoImpl`) that parse
    UUID arguments, issue single SQL statements, and translate store errors,
  * inner handlers (`handlers_inner`) that call exactly one DAO operation and
    map `DBError` to `HandlerError`,
  * the HTTP error rendering (`HandlerError.into_response`).

Effectful parts are embedded by explicit state passing: the store is a
`PgState` (the two tables), and the environment's choices for a single
statement (an injected infrastructure failure, the store-generated uuid and
timestamp, the text of a foreign-key-violation error) are a `DbOracle`
argument. Inner handlers take a DAO capability as a trait object in the
source, so each is embedded as a function of the result of its single DAO
call; composed `*_route` definitions plug in the store-backed DAOs.
-/

/-- Modelled from the spec: `models.rs` is not among the provided sources.
`Question`: input-only record, no identity. -/
structure Question where
  title : String
  description : String
  deriving Repr, DecidableEq

/-- Modelled from the spec: persisted form of a question; `question_uuid` and
`created_at` are generated by the store on insert. -/
structure QuestionDetail where
  question_uuid : String
  title : String
  description : String
  created_at : String
  deriving Repr, DecidableEq

/-- Modelled from the spec: input-only answer; `question_uuid` is a foreign
key reference to a question. -/
structure Answer where
  question_uuid : String
  content : String
  deriving Repr, DecidableEq

/-- Modelled from the spec: persisted form of an answer. -/
structure AnswerDetail where
  answer_uuid : String
  question_uuid : String
  content : String
  created_at : String
  deriving Repr, DecidableEq

/-- Modelled from the spec: single-field wrapper used as a delete/lookup key. -/
structure QuestionId where
  question_uuid : String
  deriving Repr, DecidableEq

/-- Modelled from the spec: single-field wrapper used as a delete/lookup key. -/
structure AnswerId where
  answer_uuid : String
  deriving Repr, DecidableEq

/-- Modelled from the spec: the data-layer error taxonomy (`models.rs` not in
the sources). `InvalidUUID` carries a message (a UUID parse failure's text, or
a foreign-key-violation database error's text); `Other` boxes an arbitrary
underlying cause, represented here by its display text. -/
inductive DBError where
  | InvalidUUID (msg : String)
  | Other (cause : String)
  deriving Repr, DecidableEq

/-- `HandlerError` from `handlers/handlers_inner.rs`. -/
inductive HandlerError where
  | BadRequest (msg : String)
  | InternalError (msg : String)
  deriving Repr, DecidableEq

/-- `HandlerError::default_internal_error`: the generic user-safe message. -/
def HandlerError.default_internal_error : HandlerError :=
  HandlerError.InternalError "Something went wrong! Please try again."

/- ## Model of the external `uuid` crate's `Uuid::parse_str` -/

def isHexChar (c : Char) : Bool :=
  ('0' ≤ c && c ≤ '9') || ('a' ≤ c && c ≤ 'f') || ('A' ≤ c && c ≤ 'F')

/-- Character positions of the hyphens in the 8-4-4-4-12 textual form. -/
def hyphenPositions : List Nat := [8, 13, 18, 23]

/-- Does the character list spell a hyphenated (8-4-4-4-12) UUID? -/
def hyphenatedOk (cs : List Char) : Bool :=
  cs.length == 36 &&
    (List.range 36).all fun i =>
      if hyphenPositions.contains i then cs.getD i ' ' == '-'
      else isHexChar (cs.getD i ' ')

/-- Does the character list spell a simple (32 hex digits) UUID? -/
def simpleOk (cs : List Char) : Bool :=
  cs.length == 32 && cs.all isHexChar

def lowerHexChar (c : Char) : Char :=
  if 'A' ≤ c && c ≤ 'F' then Char.ofNat (c.toNat + 32) else c

/-- Insert the four hyphens into a 32-hex-digit simple form. -/
def insertHyphens (cs : List Char) : List Char :=
  cs.take 8 ++ '-' :: (cs.drop 8).take 4 ++ '-' :: (cs.drop 12).take 4
    ++ '-' :: (cs.drop 16).take 4 ++ '-' :: cs.drop 20

namespace Uuid

/-- Model of the external `uuid` crate's `Uuid::parse_str` (the crate is an
external collaborator, not part of the sources). It accepts the hyphenated
8-4-4-4-12 and simple 32-hex-digit textual forms; the crate's additional
urn/braced forms are not modelled since no property here depends on them. A
parsed value is represented by its canonical lowercase hyphenated rendering
(what `to_string` on the parsed value yields); a parse failure's display text
is modelled by the fixed string "invalid UUID". -/
def parse_str (s : String) : Except String String :=
  let cs := s.data
  if hyphenatedOk cs then Except.ok (String.mk (cs.map lowerHexChar))
  else if simpleOk cs then
    Except.ok (String.mk ((insertHyphens cs).map lowerHexChar))
  else Except.error "invalid UUID"

end Uuid

/- ## Model of the relational store and the sqlx error surface -/

/-- One row of the `questions` table. -/
structure QuestionRecord where
  question_uuid : String
  title : String
  description : String
  created_at : String
  deriving Repr, DecidableEq

/-- One row of the `answers` table. -/
structure AnswerRecord where
  answer_uuid : String
  question_uuid : String
  content : String
  created_at : String
  deriving Repr, DecidableEq

/-- The relational store: the two tables, in insertion order. -/
structure PgState where
  questions : List QuestionRecord
  answers : List AnswerRecord
  deriving Repr, DecidableEq

/-- Model of `sqlx::Error` as the DAOs discriminate it: a database-reported
error (with whether `is_foreign_key_violation()` holds, and its display text),
or any other sqlx failure (connection error, etc.). -/
inductive SqlxError where
  | Database (is_fk : Bool) (msg : String)
  | OtherErr (msg : String)
  deriving Repr, DecidableEq

/-- Display text of a sqlx error (`err.to_string()` / the boxed cause). -/
def SqlxError.text : SqlxError → String
  | SqlxError.Database _ msg => msg
  | SqlxError.OtherErr msg => msg

/-- The environment's choices for a single SQL statement: an injected
infrastructure failure (if any), the store-generated uuid and timestamp for an
insert, and the display text of a foreign-key-violation error raised by the
store. -/
structure DbOracle where
  failure : Option SqlxError
  genUuid : String
  genTime : String
  fkMsg : String
  deriving Repr, DecidableEq

/- ## `QuestionsDaoImpl` (persistance/questions_dao.rs) -/

namespace QuestionsDaoImpl

/-- The statement `INSERT INTO questions (title, description) VALUES ($1, $2)
RETURNING *`: an injected infrastructure failure wins; otherwise the store
appends a row with generated uuid and timestamp and returns it. -/
def insertQuestion (st : PgState) (o : DbOracle) (q : Question) :
    Except SqlxError (QuestionRecord × PgState) :=
  match o.failure with
  | some e => Except.error e
  | none =>
    let record : QuestionRecord :=
      { question_uuid := o.genUuid, title := q.title,
        description := q.description, created_at := o.genTime }
    Except.ok (record, { st with questions := st.questions ++ [record] })

/-- `QuestionsDaoImpl::create_question`: runs the insert, wraps every sqlx
error as `DBError::Other`, and on success builds the `QuestionDetail` from the
returned record. -/
def create_question (st : PgState) (o : DbOracle) (question : Question) :
    Except DBError QuestionDetail × PgState :=
  match insertQuestion st o question with
  | Except.error err => (Except.error (DBError.Other err.text), st)
  | Except.ok (record, st') =>
    (Except.ok { question_uuid := record.question_uuid, title := record.title,
                 description := record.description,
                 created_at := record.created_at }, st')

/-- `QuestionsDaoImpl::delete_question`: parses the id as a UUID first
(failing with `InvalidUUID` and leaving the store untouched), then issues
`DELETE FROM questions WHERE question_uuid = $1`; a sqlx failure is wrapped as
`Other`; otherwise the matching rows (possibly none) are removed and the call
succeeds. -/
def delete_question (st : PgState) (o : DbOracle) (question_uuid : String) :
    Except DBError Unit × PgState :=
  match Uuid.parse_str question_uuid with
  | Except.error err => (Except.error (DBError.InvalidUUID err), st)
  | Except.ok uuid =>
    match o.failure with
    | some e => (Except.error (DBError.Other e.text), st)
    | none =>
      (Except.ok (),
       { st with questions := st.questions.filter fun r => !(r.question_uuid == uuid) })

/-- `QuestionsDaoImpl::get_questions`: `SELECT * FROM questions`, every sqlx
error wrapped as `Other`, rows mapped to `QuestionDetail` in store order. -/
def get_questions (st : PgState) (o : DbOracle) :
    Except DBError (List QuestionDetail) × PgState :=
  match o.failure with
  | some e => (Except.error (DBError.Other e.text), st)
  | none =>
    (Except.ok (st.questions.map fun r =>
      { question_uuid := r.question_uuid, title := r.title,
        description := r.description, created_at := r.created_at }), st)

end QuestionsDaoImpl

/- ## `AnswersDaoImpl` (persistance/answers_dao.rs) -/

namespace AnswersDaoImpl

/-- The statement `INSERT INTO answers (question_uuid, content) VALUES
($1, $2) RETURNING *`: an injected infrastructure failure wins; otherwise the
store enforces the foreign key to `questions` (a violation is reported as a
database error whose `is_foreign_key_violation()` is true, with
store-determined text `o.fkMsg`); otherwise a row with generated uuid and
timestamp is appended and returned. -/
def insertAnswer (st : PgState) (o : DbOracle) (uuid content : String) :
    Except SqlxError (AnswerRecord × PgState) :=
  match o.failure with
  | some e => Except.error e
  | none =>
    if st.questions.any (fun r => r.question_uuid == uuid) then
      let record : AnswerRecord :=
        { answer_uuid := o.genUuid, question_uuid := uuid,
          content := content, created_at := o.genTime }
      Except.ok (record, { st with answers := st.answers ++ [record] })
    else Except.error (SqlxError.Database true o.fkMsg)

/-- The `map_err` closure on the insert in `AnswersDaoImpl::create_answer`: a
database error that is a foreign-key violation becomes `InvalidUUID` carrying
the database error's display text; every other failure becomes `Other`. -/
def mapCreateAnswerError : SqlxError → DBError
  | SqlxError.Database true msg => DBError.InvalidUUID msg
  | SqlxError.Database false msg => DBError.Other msg
  | SqlxError.OtherErr msg => DBError.Other msg

/-- `AnswersDaoImpl::create_answer`: parses `answer.question_uuid` first
(failing with `InvalidUUID` before any insert, the store untouched), then runs
the insert with the error translation above, and on success builds the
`AnswerDetail` from the returned record. -/
def create_answer (st : PgState) (o : DbOracle) (answer : Answer) :
    Except DBError AnswerDetail × PgState :=
  match Uuid.parse_str answer.question_uuid with
  | Except.error err => (Except.error (DBError.InvalidUUID err), st)
  | Except.ok uuid =>
    match insertAnswer st o uuid answer.content with
    | Except.error err => (Except.error (mapCreateAnswerError err), st)
    | Except.ok (record, st') =>
      (Except.ok { answer_uuid := record.answer_uuid,
                   question_uuid := record.question_uuid,
                   content := record.content,
                   created_at := record.created_at }, st')

/-- `AnswersDaoImpl::delete_answer`: parses the id as a UUID first (failing
with `InvalidUUID`, store untouched), then issues `DELETE FROM answers WHERE
answer_uuid = $1`; a sqlx failure is wrapped as `Other`; otherwise matching
rows (possibly none) are removed and the call succeeds. -/
def delete_answer (st : PgState) (o : DbOracle) (answer_uuid : String) :
    Except DBError Unit × PgState :=
  match Uuid.parse_str answer_uuid with
  | Except.error err => (Except.error (DBError.InvalidUUID err), st)
  | Except.ok uuid =>
    match o.failure with
    | some e => (Except.error (DBError.Other e.text), st)
    | none =>
      (Except.ok (),
       { st with answers := st.answers.filter fun r => !(r.answer_uuid == uuid) })

/-- `AnswersDaoImpl::get_answers`: parses `question_uuid` first (failing with
`InvalidUUID`), then `SELECT * FROM answers WHERE question_uuid = $1`, every
sqlx error wrapped as `Other`, matching rows mapped to `AnswerDetail`. -/
def get_answers (st : PgState) (o : DbOracle) (question_uuid : String) :
    Except DBError (List AnswerDetail) × PgState :=
  match Uuid.parse_str question_uuid with
  | Except.error err => (Except.error (DBError.InvalidUUID err), st)
  | Except.ok uuid =>
    match o.failure with
    | some e => (Except.error (DBError.Other e.text), st)
    | none =>
      (Except.ok ((st.answers.filter fun r => r.question_uuid == uuid).map fun r =>
        { answer_uuid := r.answer_uuid, question_uuid := r.question_uuid,
          content := r.content, created_at := r.created_at }), st)

end AnswersDaoImpl

/- ## Inner handlers (handlers/handlers_inner.rs)

In the source each inner handler receives a DAO capability as a trait object
and makes exactly one call on it; here each handler is the function of that
single call's result (the natural unit-test boundary, where DAOs are mocked).
-/

namespace handlers_inner

/-- Inner handler `create_question`: success passes through unchanged; every
error (after logging) becomes the default internal error. -/
def create_question (question : Except DBError QuestionDetail) :
    Except HandlerError QuestionDetail :=
  match question with
  | Except.ok question => Except.ok question
  | Except.error _ => Except.error HandlerError.default_internal_error

/-- Inner handler `read_questions`: success passes through unchanged; every
error becomes the default internal error. -/
def read_questions (questions : Except DBError (List QuestionDetail)) :
    Except HandlerError (List QuestionDetail) :=
  match questions with
  | Except.ok questions => Except.ok questions
  | Except.error _ => Except.error HandlerError.default_internal_error

/-- Inner handler `delete_question`: if the DAO result is an error, return the
default internal error; otherwise `Ok(())`. -/
def delete_question (result : Except DBError Unit) : Except HandlerError Unit :=
  match result with
  | Except.error _ => Except.error HandlerError.default_internal_error
  | Except.ok _ => Except.ok ()

/-- Inner handler `create_answer`: success passes through; an error is matched
on its variant — `InvalidUUID(s)` becomes `BadRequest(s)`, anything else the
default internal error. -/
def create_answer (answer : Except DBError AnswerDetail) :
    Except HandlerError AnswerDetail :=
  match answer with
  | Except.ok answer => Except.ok answer
  | Except.error err =>
    match err with
    | DBError.InvalidUUID s => Except.error (HandlerError.BadRequest s)
    | _ => Except.error HandlerError.default_internal_error

/-- Inner handler `read_answers`: success passes through unchanged; every
error becomes the default internal error. -/
def read_answers (answers : Except DBError (List AnswerDetail)) :
    Except HandlerError (List AnswerDetail) :=
  match answers with
  | Except.ok answers => Except.ok answers
  | Except.error _ => Except.error HandlerError.default_internal_error

/-- Inner handler `delete_answer`: if the DAO result is an error, return the
default internal error; otherwise `Ok(())`. -/
def delete_answer (result : Except DBError Unit) : Except HandlerError Unit :=
  match result with
  | Except.error _ => Except.error HandlerError.default_internal_error
  | Except.ok _ => Except.ok ()

end handlers_inner

/- ## HTTP adapter (handlers/mod.rs) -/

/-- An HTTP response as produced for a `HandlerError`: status code and body. -/
structure HttpResponse where
  status : Nat
  body : String
  deriving Repr, DecidableEq

/-- `impl IntoResponse for HandlerError` in `handlers/mod.rs`: `BadRequest` →
400 with the message as body, `InternalError` → 500 with the message as
body. -/
def HandlerError.into_response : HandlerError → HttpResponse
  | HandlerError.BadRequest msg => { status := 400, body := msg }
  | HandlerError.InternalError msg => { status := 500, body := msg }

/- ## Composed routes (store-backed DAO plugged into the inner handler) -/

/-- `POST /question` through `QuestionsDaoImpl` and the inner handler. -/
def create_question_route (st : PgState) (o : DbOracle) (q : Question) :
    Except HandlerError QuestionDetail × PgState :=
  let r := QuestionsDaoImpl.create_question st o q
  (handlers_inner.create_question r.fst, r.snd)

/-- `POST /answer` through `AnswersDaoImpl` and the inner handler. -/
def create_answer_route (st : PgState) (o : DbOracle) (a : Answer) :
    Except HandlerError AnswerDetail × PgState :=
  let r := AnswersDaoImpl.create_answer st o a
  (handlers_inner.create_answer r.fst, r.snd)

/-- The caller-visible response of a failed `POST /answer` run (`none` when
the run succeeds), via `IntoResponse`. -/
def create_answer_error_response (st : PgState) (o : DbOracle) (a : Answer) :
    Option HttpResponse :=
  match (create_answer_route st o a).fst with
  | Except.error e => some e.into_response
  | Except.ok _ => none

/- ## Small discriminators and concrete fixtures -/

/-- Is the result a `BadRequest` handler error? -/
def isBadRequestResult {α : Type} : Except HandlerError α → Bool
  | Except.error (HandlerError.BadRequest _) => true
  | _ => false

/-- Is the result an `InvalidUUID` data-layer error? -/
def isInvalidUUIDResult {α : Type} : Except DBError α → Bool
  | Except.error (DBError.InvalidUUID _) => true
  | _ => false

/-- The empty store. -/
def emptyStore : PgState := { questions := [], answers := [] }

/-- An oracle with no injected failure. -/
def sampleOracle : DbOracle :=
  { failure := none, genUuid := "22222222-2222-2222-2222-222222222222",
    genTime := "2024-01-01 00:00:00", fkMsg := "fk violation" }

/-- A well-formed UUID string in canonical lowercase hyphenated form. -/
def goodUuid : String := "11111111-1111-1111-1111-111111111111"

/- ## Claim theorems -/

/-- C1, counterexample: the uniform-mapping claim fails at the
`create_question` inner handler. When its DAO call returns
`Err(DBError::InvalidUUID("test"))`, the handler returns the default
`InternalError`, not a `BadRequest` (matching the repository's own unit test
`create_question_should_return_error`, which expects `InternalError` there). -/
theorem create_question_invaliduuid_is_internal :
    handlers_inner.create_question (Except.error (DBError.InvalidUUID "test"))
      = Except.error (HandlerError.InternalError "Something went wrong! Please try again.") ∧
    isBadRequestResult
      (handlers_inner.create_question (Except.error (DBError.InvalidUUID "test"))) = false :=
  ⟨rfl, rfl⟩

/-- C1, amended: the `InvalidUUID` → `BadRequest` mapping is applied only in
the `create_answer` inner handler; the `create_question` inner handler maps
every `DBError` — `InvalidUUID` included — to the default `InternalError`. -/
theorem create_handlers_invaliduuid_mapping (s : String) (e : DBError) :
    handlers_inner.create_answer (Except.error (DBError.InvalidUUID s))
      = Except.error (HandlerError.BadRequest s) ∧
    handlers_inner.create_question (Except.error e)
      = Except.error HandlerError.default_internal_error :=
  ⟨rfl, rfl⟩

/-- C4: for every DAO failure other than `InvalidUUID` (i.e. any
`DBError::Other`), both create inner handlers return `InternalError` carrying
exactly the fixed string "Something went wrong! Please try again.", and the
returned error is identical for any two underlying causes. -/
theorem create_handlers_other_error_fixed_internal (a b : String) :
    handlers_inner.create_question (Except.error (DBError.Other a))
      = Except.error (HandlerError.InternalError "Something went wrong! Please try again.") ∧
    handlers_inner.create_answer (Except.error (DBError.Other a))
      = Except.error (HandlerError.InternalError "Something went wrong! Please try again.") ∧
    handlers_inner.create_question (Except.error (DBError.Other a))
      = handlers_inner.create_question (Except.error (DBError.Other b)) ∧
    handlers_inner.create_answer (Except.error (DBError.Other a))
      = handlers_inner.create_answer (Except.error (DBError.Other b)) :=
  ⟨rfl, rfl, rfl, rfl⟩

/-- C5: every read or delete inner handler maps every `DBError` variant —
`InvalidUUID` included — to the default `InternalError`; in particular none of
them ever returns a `BadRequest`. -/
theorem read_delete_handlers_always_internal (e : DBError) :
    handlers_inner.read_questions (Except.error e)
      = Except.error HandlerError.default_internal_error ∧
    handlers_inner.read_answers (Except.error e)
      = Except.error HandlerError.default_internal_error ∧
    handlers_inner.delete_question (Except.error e)
      = Except.error HandlerError.default_internal_error ∧
    handlers_inner.delete_answer (Except.error e)
      = Except.error HandlerError.default_internal_error ∧
    isBadRequestResult (handlers_inner.delete_question (Except.error e)) = false ∧
    isBadRequestResult (handlers_inner.delete_answer (Except.error e)) = false :=
  ⟨rfl, rfl, rfl, rfl, rfl, rfl⟩

/-- C9: every inner handler acts as the identity on success: when its single
DAO call returns `Ok(v)`, the handler returns `Ok(v)` unchanged (for the read
operations, the very same list). -/
theorem handlers_identity_on_ok (qd : QuestionDetail) (qs : List QuestionDetail)
    (ad : AnswerDetail) (ads : List AnswerDetail) :
    handlers_inner.create_question (Except.ok qd) = Except.ok qd ∧
    handlers_inner.read_questions (Except.ok qs) = Except.ok qs ∧
    handlers_inner.delete_question (Except.ok ()) = Except.ok () ∧
    handlers_inner.create_answer (Except.ok ad) = Except.ok ad ∧
    handlers_inner.read_answers (Except.ok ads) = Except.ok ads ∧
    handlers_inner.delete_answer (Except.ok ()) = Except.ok () :=
  ⟨rfl, rfl, rfl, rfl, rfl, rfl⟩

/-- C2: for every answer whose `question_uuid` fails UUID parsing,
`AnswersDaoImpl::create_answer` returns `Err(DBError::InvalidUUID(..))` with
the store unchanged (no insert is issued), and the composed `create_answer`
route then fails with `HandlerError::BadRequest` — never `InternalError`. -/
theorem create_answer_malformed_uuid_bad_request (st : PgState) (o : DbOracle)
    (a : Answer) (e : String)
    (h : Uuid.parse_str a.question_uuid = Except.error e) :
    AnswersDaoImpl.create_answer st o a
      = (Except.error (DBError.InvalidUUID e), st) ∧
    (create_answer_route st o a).fst
      = Except.error (HandlerError.BadRequest e) := by
  have h1 : AnswersDaoImpl.create_answer st o a
      = (Except.error (DBError.InvalidUUID e), st) := by
    unfold AnswersDaoImpl.create_answer
    rw [h]
  refine ⟨h1, ?_⟩
  simp [create_answer_route, h1, handlers_inner.create_answer]

/-- C2 witness: the concrete malformed string "not-a-uuid" against the empty
store and the no-failure oracle. -/
theorem create_answer_malformed_uuid_bad_request_witness :
    Uuid.parse_str "not-a-uuid" = Except.error "invalid UUID" ∧
    AnswersDaoImpl.create_answer emptyStore sampleOracle
        { question_uuid := "not-a-uuid", content := "x" }
      = (Except.error (DBError.InvalidUUID "invalid UUID"), emptyStore) ∧
    (create_answer_route emptyStore sampleOracle
        { question_uuid := "not-a-uuid", content := "x" }).fst
      = Except.error (HandlerError.BadRequest "invalid UUID") := by
  have h := create_answer_malformed_uuid_bad_request emptyStore sampleOracle
    { question_uuid := "not-a-uuid", content := "x" } "invalid UUID" rfl
  exact ⟨rfl, h.1, h.2⟩

/-- An oracle injecting a foreign-key-violation database error whose display
text is "db text A". -/
def oracleFkA : DbOracle :=
  { failure := some (SqlxError.Database true "db text A"),
    genUuid := "22222222-2222-2222-2222-222222222222",
    genTime := "2024-01-01 00:00:00", fkMsg := "fk violation" }

/-- The same oracle with the database error's display text changed to
"db text B". -/
def oracleFkB : DbOracle :=
  { failure := some (SqlxError.Database true "db text B"),
    genUuid := "22222222-2222-2222-2222-222222222222",
    genTime := "2024-01-01 00:00:00", fkMsg := "fk violation" }

/-- C3, counterexample: on the `POST /answer` foreign-key-violation path the
caller-visible response body IS the raw database error text. Two runs that
differ only in the store error's display text ("db text A" vs "db text B")
produce different caller-visible responses, each body carrying that raw
text. -/
theorem create_answer_response_leaks_db_text :
    create_answer_error_response emptyStore oracleFkA
        { question_uuid := goodUuid, content := "x" }
      = some { status := 400, body := "db text A" } ∧
    create_answer_error_response emptyStore oracleFkB
        { question_uuid := goodUuid, content := "x" }
      = some { status := 400, body := "db text B" } :=
  ⟨rfl, rfl⟩

/-- C3, amended: the caller-visible error response is independent of the
underlying store error's text on every path except the `create_answer`
`InvalidUUID` path: both create handlers collapse any two `Other` causes to
the same error, every read/delete handler and `create_question` return the
default `InternalError` (rendered as 500 with the fixed generic body) for
every `DBError`, but a `BadRequest(s)` — which `create_answer` produces from
`InvalidUUID(s)`, including the foreign-key case where `s` is the database
error's text — is rendered as 400 with `s` itself as the body. -/
theorem error_responses_text_independence (a b s : String) (e : DBError) :
    handlers_inner.create_answer (Except.error (DBError.Other a))
      = handlers_inner.create_answer (Except.error (DBError.Other b)) ∧
    handlers_inner.create_question (Except.error e)
      = Except.error HandlerError.default_internal_error ∧
    handlers_inner.read_questions (Except.error e)
      = Except.error HandlerError.default_internal_error ∧
    handlers_inner.read_answers (Except.error e)
      = Except.error HandlerError.default_internal_error ∧
    handlers_inner.delete_question (Except.error e)
      = Except.error HandlerError.default_internal_error ∧
    handlers_inner.delete_answer (Except.error e)
      = Except.error HandlerError.default_internal_error ∧
    HandlerError.default_internal_error.into_response
      = { status := 500, body := "Something went wrong! Please try again." } ∧
    (HandlerError.BadRequest s).into_response = { status := 400, body := s } :=
  ⟨rfl, rfl, rfl, rfl, rfl, rfl, rfl, rfl⟩

/-- C7: for every id string that fails UUID parsing, both DAO delete
operations return `Err(DBError::InvalidUUID(..))` without issuing any delete
statement — the returned store is exactly the input store. -/
theorem dao_delete_malformed_uuid_invalid (st : PgState) (o : DbOracle)
    (idStr e : String) (h : Uuid.parse_str idStr = Except.error e) :
    QuestionsDaoImpl.delete_question st o idStr
      = (Except.error (DBError.InvalidUUID e), st) ∧
    AnswersDaoImpl.delete_answer st o idStr
      = (Except.error (DBError.InvalidUUID e), st) := by
  constructor
  · unfold QuestionsDaoImpl.delete_question
    rw [h]
  · unfold AnswersDaoImpl.delete_answer
    rw [h]

/-- C7 witness: the concrete malformed id "123" (as in the repository's unit
tests) against a one-question store. -/
theorem dao_delete_malformed_uuid_invalid_witness :
    Uuid.parse_str "123" = Except.error "invalid UUID" ∧
    QuestionsDaoImpl.delete_question emptyStore sampleOracle "123"
      = (Except.error (DBError.InvalidUUID "invalid UUID"), emptyStore) ∧
    AnswersDaoImpl.delete_answer emptyStore sampleOracle "123"
      = (Except.error (DBError.InvalidUUID "invalid UUID"), emptyStore) := by
  have h := dao_delete_malformed_uuid_invalid emptyStore sampleOracle "123"
    "invalid UUID" rfl
  exact ⟨rfl, h.1, h.2⟩

/-- C6: deleting a well-formed UUID that identifies no existing row succeeds:
when the id parses, no infrastructure failure is injected, and no row of the
respective table carries that uuid, both DAO delete operations return
`Ok(())` with the store unchanged — a delete affecting zero rows is not an
error. -/
theorem dao_delete_nonexistent_ok (st : PgState) (o : DbOracle) (u uuid : String)
    (hp : Uuid.parse_str u = Except.ok uuid)
    (hf : o.failure = none)
    (hq : st.questions.all (fun r => !(r.question_uuid == uuid)) = true)
    (ha : st.answers.all (fun r => !(r.answer_uuid == uuid)) = true) :
    QuestionsDaoImpl.delete_question st o u = (Except.ok (), st) ∧
    AnswersDaoImpl.delete_answer st o u = (Except.ok (), st) := by
  have hqf : st.questions.filter (fun r => !(r.question_uuid == uuid))
      = st.questions :=
    List.filter_eq_self.mpr (List.all_eq_true.mp hq)
  have haf : st.answers.filter (fun r => !(r.answer_uuid == uuid))
      = st.answers :=
    List.filter_eq_self.mpr (List.all_eq_true.mp ha)
  constructor
  · simp [QuestionsDaoImpl.delete_question, hp, hf, hqf]
  · simp [AnswersDaoImpl.delete_answer, hp, hf, haf]

/-- C6 witness: the concrete well-formed uuid `goodUuid` against the empty
store (so it certainly identifies no row) and the no-failure oracle. -/
theorem dao_delete_nonexistent_ok_witness :
    Uuid.parse_str goodUuid = Except.ok goodUuid ∧
    sampleOracle.failure = none ∧
    emptyStore.questions.all (fun r => !(r.question_uuid == goodUuid)) = true ∧
    emptyStore.answers.all (fun r => !(r.answer_uuid == goodUuid)) = true ∧
    QuestionsDaoImpl.delete_question emptyStore sampleOracle goodUuid
      = (Except.ok (), emptyStore) ∧
    AnswersDaoImpl.delete_answer emptyStore sampleOracle goodUuid
      = (Except.ok (), emptyStore) := by
  have h := dao_delete_nonexistent_ok emptyStore sampleOracle goodUuid goodUuid
    rfl rfl rfl rfl
  exact ⟨rfl, rfl, rfl, rfl, h.1, h.2⟩

/-- C8: `AnswersDaoImpl::get_answers` parses its `question_uuid` argument
first — a malformed argument yields `Err(DBError::InvalidUUID(..))` with the
store untouched — and for a well-formed uuid with zero matching answers (and
no infrastructure failure) it returns `Ok` of the empty sequence, not an
error. -/
theorem get_answers_parses_first_and_empty_ok (st : PgState) (o : DbOracle) :
    (∀ s e, Uuid.parse_str s = Except.error e →
      AnswersDaoImpl.get_answers st o s
        = (Except.error (DBError.InvalidUUID e), st)) ∧
    (∀ s uuid, Uuid.parse_str s = Except.ok uuid → o.failure = none →
      st.answers.all (fun r => !(r.question_uuid == uuid)) = true →
      (AnswersDaoImpl.get_answers st o s).fst = Except.ok []) := by
  constructor
  · intro s e h
    unfold AnswersDaoImpl.get_answers
    rw [h]
  · intro s uuid hp hf hall
    have hfil : st.answers.filter (fun r => r.question_uuid == uuid) = [] := by
      rw [List.filter_eq_nil_iff]
      intro a hmem
      have hx := List.all_eq_true.mp hall a hmem
      simpa using hx
    simp [AnswersDaoImpl.get_answers, hp, hf, hfil]

/-- C8 witness: the malformed "not-a-uuid" fails with `InvalidUUID`, and the
well-formed `goodUuid` with zero matching answers returns the empty list. -/
theorem get_answers_parses_first_and_empty_ok_witness :
    Uuid.parse_str "not-a-uuid" = Except.error "invalid UUID" ∧
    AnswersDaoImpl.get_answers emptyStore sampleOracle "not-a-uuid"
      = (Except.error (DBError.InvalidUUID "invalid UUID"), emptyStore) ∧
    Uuid.parse_str goodUuid = Except.ok goodUuid ∧
    (AnswersDaoImpl.get_answers emptyStore sampleOracle goodUuid).fst
      = Except.ok [] := by
  have h := get_answers_parses_first_and_empty_ok emptyStore sampleOracle
  exact ⟨rfl, h.1 "not-a-uuid" "invalid UUID" rfl, rfl,
    h.2 goodUuid goodUuid rfl rfl rfl⟩

/-- The `QuestionDetail` a successful insert yields under oracle `o` for
question `q` (generated uuid and timestamp come from the store). -/
def generatedDetail (o : DbOracle) (q : Question) : QuestionDetail :=
  { question_uuid := o.genUuid, title := q.title,
    description := q.description, created_at := o.genTime }

/-- C10: `QuestionsDaoImpl::create_question` never returns
`DBError::InvalidUUID` — every store failure is wrapped as `DBError::Other` —
so the composed `create_question` route never returns `BadRequest`: for every
store, oracle and input, the route either succeeds or fails with exactly the
default `InternalError`. -/
theorem create_question_never_invaliduuid (st : PgState) (o : DbOracle)
    (q : Question) :
    isInvalidUUIDResult (QuestionsDaoImpl.create_question st o q).fst = false ∧
    isBadRequestResult (create_question_route st o q).fst = false ∧
    ((∃ d, (create_question_route st o q).fst = Except.ok d) ∨
      (create_question_route st o q).fst
        = Except.error HandlerError.default_internal_error) := by
  cases hf : o.failure with
  | none =>
    have hc : (QuestionsDaoImpl.create_question st o q).fst
        = Except.ok (generatedDetail o q) := by
      simp [QuestionsDaoImpl.create_question, QuestionsDaoImpl.insertQuestion,
        hf, generatedDetail]
    have hroute : (create_question_route st o q).fst
        = Except.ok (generatedDetail o q) := by
      simp [create_question_route, hc, handlers_inner.create_question]
    refine ⟨?_, ?_, Or.inl ⟨generatedDetail o q, hroute⟩⟩
    · simp [hc, isInvalidUUIDResult]
    · simp [hroute, isBadRequestResult]
  | some e =>
    have hc : (QuestionsDaoImpl.create_question st o q).fst
        = Except.error (DBError.Other e.text) := by
      simp [QuestionsDaoImpl.create_question, QuestionsDaoImpl.insertQuestion, hf]
    have hroute : (create_question_route st o q).fst
        = Except.error HandlerError.default_internal_error := by
      simp [create_question_route, hc, handlers_inner.create_question]
    refine ⟨?_, ?_, Or.inr hroute⟩
    · simp [hc, isInvalidUUIDResult]
    · simp [hroute, isBadRequestResult, HandlerError.default_internal_error]
